import Mathlib

/-!
Verification of the natural-language specification of
`src/DatabaseLibrary/assertion.py` (Robotframework Extended Database Library)
against a shallow embedding of its `Assertion` class.

Modelling conventions:
* The external collaborators (`self.query`, `self.row_count`, `self.open_sql`,
  `self.compare_tables`, `self.count_unique_rows_table`,
  `self.count_object_rows_table`, `self.count_found_rows_table`) and the stored
  driver name `self.db_api_module_name` are gathered into an explicit `Env`
  record, passed to every check.
* Column values of returned rows are modelled as integers (`List Int` per row):
  the derived-scalar checks are only ever fed COUNT-style results, and `str`
  of a Python int coincides with `toString` of a Lean `Int`.
* Python exceptions are modelled by `PyError`: an `AssertionError` carrying its
  message, and the native errors the code can let escape (`ValueError` from
  `int()`/`float()` coercion, `ZeroDivisionError`, `IndexError` from `rows[0]`).
* Python floats are modelled exactly: a parsed decimal literal "a.b" (from
  joined integer column values) is kept as an exact numerator over a power of
  ten, and the percentage check computes in ℚ; `round` is Python 3 rounding
  (nearest integer, ties to even).
* Each check returns the ordered list of collaborator calls it performs
  (its `Event` trace, used for the ordering/effect claims) together with
  its outcome, `Except PyError Unit` (`ok` = the keyword returns silently).
  `logger.info` calls are pure logging and are not modelled.
-/

/-- The Python errors observable from the assertion keywords. -/
inductive PyError where
  | assertionError (msg : String)
  | valueError
  | zeroDivisionError
  | indexError
deriving DecidableEq

/-- One collaborator call performed by a check, in program order. -/
inductive Event where
  | queryEv (sql : String) (sansTran : Bool)
  | rowCountEv (sql : String) (sansTran : Bool)
  | openSqlEv (file : String)
  | execScriptEv (script : String)
  | cursorEv
  | compareTablesEv (s1 t1 s2 t2 : String)
  | countUniqueEv (schema table key : String)
  | countObjectEv (schema table : String)
  | countFoundEv (schema table key ftable fkey : String)
deriving DecidableEq

/-- The ambient state of an `Assertion` object: the stored driver module name
and the query-execution / script-loading collaborators the checks call. -/
structure Env where
  db_api_module_name : String
  query : String → Bool → List (List Int)
  row_count : String → Bool → Int
  open_sql : String → String
  compare_tables : String → String → String → String → Int
  count_unique_rows_table : String → String → String → List (List Int)
  count_object_rows_table : String → String → List (List Int)
  count_found_rows_table : String → String → String → String → String → List (List Int)

/-- Value of a list of decimal digit characters (most significant first). -/
def digitsToNat (cs : List Char) : Nat :=
  cs.foldl (fun a c => 10 * a + (c.toNat - 48)) 0

/-- Python `int()` on an unsigned decimal string, as characters: defined
exactly when the (nonempty) string is all digits. -/
def pyIntAux (cs : List Char) : Option Int :=
  if cs ≠ [] ∧ cs.all Char.isDigit then some (digitsToNat cs : Int) else none

/-- Python `int()` on a character list: an optional sign, then digits. -/
def pyIntChars (cs : List Char) : Option Int :=
  match cs with
  | [] => none
  | c :: rest =>
    if c = '-' then (pyIntAux rest).map (fun n => -n)
    else if c = '+' then pyIntAux rest
    else pyIntAux (c :: rest)

/-- Python `int(numRows.encode('ascii'))` as used by the row-count checks:
`none` models the native coercion error (ValueError / UnicodeEncodeError). -/
def pyIntOfString (s : String) : Option Int :=
  pyIntChars s.data

/-- Python `float()` on an unsigned literal: `digits`, `digits.digits`,
`.digits` or `digits.`, with at least one digit. The exact value is returned
as a pair `(n, e)` standing for `n / 10 ^ e`. -/
def parseUnsigned (cs : List Char) : Option (Nat × Nat) :=
  let ip := cs.takeWhile Char.isDigit
  let rest := cs.dropWhile Char.isDigit
  match rest with
  | [] => if ip = [] then none else some (digitsToNat ip, 0)
  | d :: fracs =>
    if d = '.' ∧ fracs.all Char.isDigit ∧ (ip ≠ [] ∨ fracs ≠ []) then
      some (digitsToNat ip * 10 ^ fracs.length + digitsToNat fracs,
        fracs.length)
    else none

/-- Python `float()` on a character list: an optional sign then an unsigned
decimal literal, exactly as `(num, e)` for `num / 10 ^ e`. `none` models the
native ValueError. -/
def pyFloatChars (cs : List Char) : Option (Int × Nat) :=
  match cs with
  | [] => none
  | c :: rest =>
    if c = '-' then (parseUnsigned rest).map (fun p => (-(p.1 : Int), p.2))
    else if c = '+' then (parseUnsigned rest).map (fun p => ((p.1 : Int), p.2))
    else (parseUnsigned (c :: rest)).map (fun p => ((p.1 : Int), p.2))

/-- Python `float()` of a string (the decimal subset the checks can build). -/
def pyFloat (s : String) : Option (Int × Nat) :=
  pyFloatChars s.data

/-- Python 3 `round()` of the exact value `num / 10 ^ e` to an integer:
nearest integer, ties to the even one. -/
def pyRound (num : Int) (e : Nat) : Int :=
  let den : Int := ((10 : Nat) ^ e : Nat)
  let f := Int.fdiv num den
  let rem := num - f * den
  if 2 * rem < den then f
  else if den < 2 * rem then f + 1
  else if f % 2 = 0 then f else f + 1

/-- The scalar-flatten heuristic of the derived-scalar checks:
`round(float('.'.join(str(elem) for elem in row)))`.
`none` models the native ValueError of an unparseable join. -/
def flattenRow (row : List Int) : Option Int :=
  (pyFloat (String.intercalate "." (row.map toString))).map
    (fun p => pyRound p.1 p.2)

/-- `check_if_exists_in_database(selectStatement, sansTran)`: raises when
`self.query(...)` returns a falsy (empty) row list. -/
def check_if_exists_in_database (env : Env) (selectStatement : String)
    (sansTran : Bool) : List Event × Except PyError Unit :=
  ([.queryEv selectStatement sansTran],
   if env.query selectStatement sansTran = [] then
     .error (.assertionError
       ("Expected to have have at least one row from '" ++ selectStatement ++
         "' but got 0 rows."))
   else .ok ())

/-- `check_if_not_exists_in_database(selectStatement, sansTran)`: raises when
`self.query(...)` returns a truthy (nonempty) row list. -/
def check_if_not_exists_in_database (env : Env) (selectStatement : String)
    (sansTran : Bool) : List Event × Except PyError Unit :=
  let queryResults := env.query selectStatement sansTran
  ([.queryEv selectStatement sansTran],
   if queryResults = [] then .ok ()
   else .error (.assertionError
     ("Expected to have have no rows from '" ++ selectStatement ++
       ("' but got some rows : " ++ toString queryResults ++ "."))))

/-- `row_count_is_equal_to_x(selectStatement, numRows, sansTran)`: compares
`self.row_count(...)` with `int(numRows.encode('ascii'))`. -/
def row_count_is_equal_to_x (env : Env) (selectStatement numRows : String)
    (sansTran : Bool) : List Event × Except PyError Unit :=
  let num_rows := env.row_count selectStatement sansTran
  ([.rowCountEv selectStatement sansTran],
   match pyIntOfString numRows with
   | none => .error .valueError
   | some n =>
     if num_rows ≠ n then
       .error (.assertionError
         ("Expected same number of rows to be returned from '" ++
           selectStatement ++ "' than the returned rows of " ++
           toString num_rows))
     else .ok ())

/-- `row_count_is_greater_than_x(selectStatement, numRows, sansTran)`: raises
when `self.row_count(...) <= int(numRows.encode('ascii'))`. -/
def row_count_is_greater_than_x (env : Env) (selectStatement numRows : String)
    (sansTran : Bool) : List Event × Except PyError Unit :=
  let num_rows := env.row_count selectStatement sansTran
  ([.rowCountEv selectStatement sansTran],
   match pyIntOfString numRows with
   | none => .error .valueError
   | some n =>
     if num_rows ≤ n then
       .error (.assertionError
         ("Expected more rows to be returned from '" ++ selectStatement ++
           "' than the returned rows of " ++ toString num_rows))
     else .ok ())

/-- `row_count_is_less_than_x(selectStatement, numRows, sansTran)`: raises
when `self.row_count(...) >= int(numRows.encode('ascii'))`. -/
def row_count_is_less_than_x (env : Env) (selectStatement numRows : String)
    (sansTran : Bool) : List Event × Except PyError Unit :=
  let num_rows := env.row_count selectStatement sansTran
  ([.rowCountEv selectStatement sansTran],
   match pyIntOfString numRows with
   | none => .error .valueError
   | some n =>
     if num_rows ≥ n then
       .error (.assertionError
         ("Expected less rows to be returned from '" ++ selectStatement ++
           "' than the returned rows of " ++ toString num_rows))
     else .ok ())

/-- The dialect dispatch of `table_must_exist`: the existence-check SQL built
for the stored driver module name. -/
def tableExistsStatement (dbApiModuleName tableName : String) : String :=
  if dbApiModuleName = "cx_Oracle" then
    "SELECT * FROM all_objects WHERE object_type IN ('TABLE','VIEW') AND owner = SYS_CONTEXT('USERENV', 'SESSION_USER') AND object_name = UPPER('" ++
      tableName ++ "')"
  else if dbApiModuleName = "sqlite3" then
    "SELECT name FROM sqlite_master WHERE type='table' AND name='" ++
      tableName ++ "' COLLATE NOCASE"
  else if dbApiModuleName = "ibm_db" ∨ dbApiModuleName = "ibm_db_dbi" then
    "SELECT name FROM SYSIBM.SYSTABLES WHERE type='T' AND name=UPPER('" ++
      tableName ++ "')"
  else
    "SELECT * FROM information_schema.tables WHERE table_name='" ++
      tableName ++ "'"

/-- `table_must_exist(tableName, sansTran)`: runs the dialect-dispatched
existence query and raises when it returns zero rows. -/
def table_must_exist (env : Env) (tableName : String) (sansTran : Bool) :
    List Event × Except PyError Unit :=
  let selectStatement := tableExistsStatement env.db_api_module_name tableName
  ([.rowCountEv selectStatement sansTran],
   if env.row_count selectStatement sansTran = 0 then
     .error (.assertionError
       ("Table '" ++ tableName ++ "' does not exist in the db"))
   else .ok ())

/-- The f-string comparison query of `compare_table_structure_snowflake`. -/
def snowflakeCompareQuery (test_schema_name test_table_name result_schema_name
    result_table_name : String) : String :=
  "select * from information_schema.columns columns_left full outer join information_schema.columns columns_right on columns_left.column_name = columns_right.column_name where columns_left.table_schema = '" ++
    test_schema_name ++ "' and columns_left.table_name = '" ++
    test_table_name ++ "' and columns_right.table_schema = '" ++
    result_schema_name ++ "' and columns_right.table_name = '" ++
    result_table_name ++
    "' and (columns_left.data_type <> columns_right.data_type or columns_left.ordinal_position <> columns_right.ordinal_position)"

/-- `compare_table_structure_snowflake(script, ...)`: first deploys the script
via `self.execute_sql_script(script)`, then row-counts the mismatch query
(with the default transactional mode) and raises when it is positive. -/
def compare_table_structure_snowflake (env : Env) (script test_schema_name
    test_table_name result_schema_name result_table_name : String) :
    List Event × Except PyError Unit :=
  let query := snowflakeCompareQuery test_schema_name test_table_name
    result_schema_name result_table_name
  let num_rows := env.row_count query false
  ([.execScriptEv script, .rowCountEv query false],
   if num_rows > 0 then
     .error (.assertionError
       ("Table structure of table '" ++ test_table_name ++
         ("' does not match expected result. The number of faulty columns is '" ++
           toString num_rows ++ "'")))
   else .ok ())

/-- `check_query_result(script, ...)`: deploys the script, then compares via
`self.compare_tables(...)` and raises when faulty rows remain. The final
`sansTrans` parameter is accepted and unused, as in the source. -/
def check_query_result (env : Env) (script test_schema_name test_table_name
    result_schema_name result_table_name : String) (sansTrans : Bool) :
    List Event × Except PyError Unit :=
  let num_rows := env.compare_tables test_schema_name test_table_name
    result_schema_name result_table_name
  ([.execScriptEv script,
    .compareTablesEv test_schema_name test_table_name result_schema_name
      result_table_name],
   if num_rows > 0 then
     .error (.assertionError
       ("Result of script '" ++ script ++
         ("' does not match expected result. The number of faulty rows is '" ++
           toString num_rows ++ "'")))
   else .ok ())

/-- `script_row_count_is_greater_than_x(sqlScriptFileName, numRows, sansTran)`:
loads the script text and calls `row_count_is_greater_than_x` WITHOUT
forwarding `sansTran` (the inner call uses its default, `False`). -/
def script_row_count_is_greater_than_x (env : Env)
    (sqlScriptFileName numRows : String) (sansTran : Bool) :
    List Event × Except PyError Unit :=
  let selectStatement := env.open_sql sqlScriptFileName
  let inner := row_count_is_greater_than_x env selectStatement numRows false
  (.openSqlEv sqlScriptFileName :: inner.1, inner.2)

/-- `script_row_count_is_equal_to_x(sqlScriptFileName, numRows, sansTran)`:
loads the script text and calls `row_count_is_equal_to_x` WITHOUT forwarding
`sansTran` (the inner call uses its default, `False`). -/
def script_row_count_is_equal_to_x (env : Env)
    (sqlScriptFileName numRows : String) (sansTran : Bool) :
    List Event × Except PyError Unit :=
  let selectStatement := env.open_sql sqlScriptFileName
  let inner := row_count_is_equal_to_x env selectStatement numRows false
  (.openSqlEv sqlScriptFileName :: inner.1, inner.2)

/-- The `query_total` f-string of `count_empty_column_value_percentage`. -/
def emptyTotalQuery (schema_name table_name : String) : String :=
  "SELECT * FROM " ++ schema_name ++ "." ++ table_name

/-- The `query_column` f-string of `count_empty_column_value_percentage`. -/
def emptyColumnQuery (schema_name table_name column_name : String) : String :=
  "SELECT * FROM " ++ schema_name ++ "." ++ table_name ++ " WHERE " ++
    column_name ++ " IS NULL"

/-- `count_empty_column_value_percentage(schema, table, column, percentage)`:
computes `(null_rows / total_rows) * 100` (Python true division: the model
raises `ZeroDivisionError` when `total_rows` is 0) and raises an
AssertionError when the percentage strictly exceeds the float threshold. -/
def count_empty_column_value_percentage (env : Env)
    (schema_name table_name column_name : String) (percentage : ℚ) :
    List Event × Except PyError Unit :=
  let query_total := emptyTotalQuery schema_name table_name
  let query_column := emptyColumnQuery schema_name table_name column_name
  let num_rows_total := env.row_count query_total false
  let num_rows_columns := env.row_count query_column false
  ([.rowCountEv query_total false, .rowCountEv query_column false],
   if num_rows_total = 0 then .error .zeroDivisionError
   else
     let percentage_calculated : ℚ :=
       ((num_rows_columns : ℚ) / (num_rows_total : ℚ)) * 100
     if percentage_calculated > percentage then
       .error (.assertionError
         ("Percentage of EMPTY columns is '" ++ toString percentage_calculated ++
           ("' is higher than allow percentage '" ++ toString percentage ++ "'")))
     else .ok ())

/-- The repeated outcome shape of the derived-scalar equality checks:
flatten the first row of each result with
`round(float('.'.join(str(elem) for elem in result[0])))` (in program order:
`rows1[0]` is indexed and flattened first) and raise `mkMsg` on mismatch. -/
def scalarEqCheck (rows1 rows2 : List (List Int)) (mkMsg : Int → Int → String) :
    Except PyError Unit :=
  match rows1 with
  | [] => .error .indexError
  | a :: _ =>
    match flattenRow a with
    | none => .error .valueError
    | some u =>
      match rows2 with
      | [] => .error .indexError
      | b :: _ =>
        match flattenRow b with
        | none => .error .valueError
        | some o =>
          if u ≠ o then .error (.assertionError (mkMsg u o)) else .ok ()

/-- `row_unique_check(schema_name, table_name, unique_key)`: flattens the
first rows of the unique-count and total-count results and raises when they
differ. -/
def row_unique_check (env : Env) (schema_name table_name unique_key : String) :
    List Event × Except PyError Unit :=
  ([.countUniqueEv schema_name table_name unique_key,
    .countObjectEv schema_name table_name],
   scalarEqCheck
     (env.count_unique_rows_table schema_name table_name unique_key)
     (env.count_object_rows_table schema_name table_name)
     (fun uniqueRows objectRows =>
       "Object rows: '" ++ toString objectRows ++ ("', unique rows '" ++
         unique_key ++ ("': '" ++ toString uniqueRows ++ "'"))))

/-- `row_unique_check2(count_key, count_total)`: loads both script files,
obtains a cursor, runs both queries (default transactional mode), flattens
the first row of each result and raises when they differ. -/
def row_unique_check2 (env : Env) (count_key count_total : String) :
    List Event × Except PyError Unit :=
  let selectStatement1 := env.open_sql count_key
  let selectStatement2 := env.open_sql count_total
  ([.openSqlEv count_key, .openSqlEv count_total, .cursorEv,
    .queryEv selectStatement1 false, .queryEv selectStatement2 false],
   scalarEqCheck (env.query selectStatement1 false)
     (env.query selectStatement2 false)
     (fun rowunique objectrows =>
       "Key is not unique, total rows: '" ++ toString objectrows ++
         ("', key rows: '" ++ toString rowunique ++ "'")))

/-- `dimensional_integrity_check_found(schema, table, key, ftable, fkey)`:
flattens the first rows of the found-count and unique-count results and
raises when they differ. -/
def dimensional_integrity_check_found (env : Env) (schema_name table_name
    unique_key foreign_table_name foreign_key : String) :
    List Event × Except PyError Unit :=
  ([.countFoundEv schema_name table_name unique_key foreign_table_name
      foreign_key,
    .countUniqueEv schema_name table_name unique_key],
   scalarEqCheck
     (env.count_found_rows_table schema_name table_name unique_key
       foreign_table_name foreign_key)
     (env.count_unique_rows_table schema_name table_name unique_key)
     (fun foundRows uniqueRows =>
       "Unique rows '" ++ unique_key ++ ("': '" ++ toString uniqueRows ++
         ("', found rows '" ++ foreign_key ++ ("': '" ++ toString foundRows ++
           "'")))))

/-- `dimensional_integrity_check_potential(schema, table, key, fkey)`:
flattens the first rows of the two unique-count results (foreign key first)
and raises when they differ. -/
def dimensional_integrity_check_potential (env : Env) (schema_name table_name
    unique_key foreign_key : String) : List Event × Except PyError Unit :=
  ([.countUniqueEv schema_name table_name foreign_key,
    .countUniqueEv schema_name table_name unique_key],
   scalarEqCheck
     (env.count_unique_rows_table schema_name table_name foreign_key)
     (env.count_unique_rows_table schema_name table_name unique_key)
     (fun potentialRows uniqueRows =>
       "Unique rows '" ++ unique_key ++ ("': '" ++ toString uniqueRows ++
         ("', potential rows '" ++ foreign_key ++ ("': '" ++
           toString potentialRows ++ "'")))))

/-- `value_variance_check(schema_name, table_name, unique_key, field)`:
flattens the first row of the unique-count result, then dispatches on
`int(field)`: 0 and 1 demand equality, 2 demands at least 2, anything
else raises the fixed 4th-argument AssertionError. The flatten runs first,
so its native errors preempt the field dispatch. -/
def value_variance_check (env : Env)
    (schema_name table_name unique_key field : String) :
    List Event × Except PyError Unit :=
  let result_uniqueRows :=
    env.count_unique_rows_table schema_name table_name unique_key
  ([.countUniqueEv schema_name table_name unique_key],
   match result_uniqueRows with
   | [] => .error .indexError
   | a :: _ =>
     match flattenRow a with
     | none => .error .valueError
     | some uniqueRows =>
       match pyIntOfString field with
       | none => .error .valueError
       | some f =>
         if f = 0 then
           if uniqueRows ≠ f then
             .error (.assertionError
               ("Expected: '" ++ field ++ ("'   Actual: '" ++
                 toString uniqueRows ++ "'")))
           else .ok ()
         else if f = 1 then
           if uniqueRows ≠ f then
             .error (.assertionError
               ("Expected: '" ++ field ++ ("'   Actual: '" ++
                 toString uniqueRows ++ "'")))
           else .ok ()
         else if f = 2 then
           if uniqueRows < f then
             .error (.assertionError
               ("Expected: '" ++ field ++ ("'   Actual: '" ++
                 toString uniqueRows ++ "'")))
           else .ok ()
         else
           .error (.assertionError
             "Check 4th argument in TC, expected value 0, 1 or 2"))

/-- A concrete environment whose queries return one row and whose row counts
are 5: used to instantiate the universally quantified theorems. -/
def envRows : Env where
  db_api_module_name := "psycopg2"
  query := fun _ _ => [[1]]
  row_count := fun _ _ => 5
  open_sql := fun f => f
  compare_tables := fun _ _ _ _ => 0
  count_unique_rows_table := fun _ _ _ => [[1]]
  count_object_rows_table := fun _ _ => [[1]]
  count_found_rows_table := fun _ _ _ _ _ => [[1]]

/-- A concrete environment whose queries return no rows and whose row counts
are 0. -/
def envEmpty : Env where
  db_api_module_name := "psycopg2"
  query := fun _ _ => []
  row_count := fun _ _ => 0
  open_sql := fun f => f
  compare_tables := fun _ _ _ _ => 0
  count_unique_rows_table := fun _ _ _ => []
  count_object_rows_table := fun _ _ => []
  count_found_rows_table := fun _ _ _ _ _ => []

/-- A concrete environment for the percentage check: the total-rows query of
table `s.t` counts 10 rows, the null-column query counts 3. -/
def envPct : Env where
  db_api_module_name := "psycopg2"
  query := fun _ _ => []
  row_count := fun q _ => if q = emptyColumnQuery "s" "t" "c" then 3 else 10
  open_sql := fun f => f
  compare_tables := fun _ _ _ _ => 0
  count_unique_rows_table := fun _ _ _ => []
  count_object_rows_table := fun _ _ => []
  count_found_rows_table := fun _ _ _ _ _ => []

/-- A concrete environment for the derived-scalar checks: the unique-count
result is the two-column row `(3, 14)`, the object-count and found-count
results are the single-column row `(3,)`. -/
def envFlat : Env where
  db_api_module_name := "psycopg2"
  query := fun _ _ => [[3, 14]]
  row_count := fun _ _ => 1
  open_sql := fun f => f
  compare_tables := fun _ _ _ _ => 0
  count_unique_rows_table := fun _ _ _ => [[3, 14]]
  count_object_rows_table := fun _ _ => [[3]]
  count_found_rows_table := fun _ _ _ _ _ => [[3]]

/-- A concrete environment whose unique-count result is the three-column row
`(1, 2, 3)`: its dot-join `"1.2.3"` is not a float literal, so the flatten
step raises the native ValueError. -/
def envVar : Env where
  db_api_module_name := "psycopg2"
  query := fun _ _ => [[1, 2, 3]]
  row_count := fun _ _ => 1
  open_sql := fun f => f
  compare_tables := fun _ _ _ _ => 0
  count_unique_rows_table := fun _ _ _ => [[1, 2, 3]]
  count_object_rows_table := fun _ _ => [[1, 2, 3]]
  count_found_rows_table := fun _ _ _ _ _ => [[1, 2, 3]]

/-- Helper: the derived-scalar equality shape passes exactly when both first
rows flatten to one and the same number. -/
theorem scalarEqCheck_ok_iff (a b : List Int) (ra rb : List (List Int))
    (m : Int → Int → String) :
    scalarEqCheck (a :: ra) (b :: rb) m = .ok () ↔
      ∃ n, flattenRow a = some n ∧ flattenRow b = some n := by
  cases h1 : flattenRow a with
  | none => simp [scalarEqCheck, h1]
  | some u =>
    cases h2 : flattenRow b with
    | none => simp [scalarEqCheck, h1, h2]
    | some o =>
      by_cases huo : u = o
      · subst huo
        simp [scalarEqCheck, h1, h2]
      · simp [scalarEqCheck, h1, h2, huo, Ne.symm huo]

/-- C1: for every single-row query result, the derived-scalar checks
(`row_unique_check`, `row_unique_check2`, `dimensional_integrity_check_found`,
`dimensional_integrity_check_potential`, `value_variance_check`) turn the
first row into a number by string-joining its column values with `.` and
rounding the float parse of that string (`flattenRow`): each passes exactly
when both flattened scalars agree (for `value_variance_check` with field
`"1"`, when the flattened scalar is 1); and concretely the two-column row
`(3, 14)` flattens to 3 (not 17) while the single-column row `(5,)`
flattens to 5. -/
theorem C1_scalar_flatten :
    flattenRow [3, 14] = some 3 ∧
    flattenRow [5] = some 5 ∧
    (∀ (env : Env) (s t k : String) (a : List Int) (ra : List (List Int))
       (b : List Int) (rb : List (List Int)),
       env.count_unique_rows_table s t k = a :: ra →
       env.count_object_rows_table s t = b :: rb →
       ((row_unique_check env s t k).2 = .ok () ↔
         ∃ n, flattenRow a = some n ∧ flattenRow b = some n)) ∧
    (∀ (env : Env) (f1 f2 : String) (a : List Int) (ra : List (List Int))
       (b : List Int) (rb : List (List Int)),
       env.query (env.open_sql f1) false = a :: ra →
       env.query (env.open_sql f2) false = b :: rb →
       ((row_unique_check2 env f1 f2).2 = .ok () ↔
         ∃ n, flattenRow a = some n ∧ flattenRow b = some n)) ∧
    (∀ (env : Env) (s t k ft fk : String) (a : List Int)
       (ra : List (List Int)) (b : List Int) (rb : List (List Int)),
       env.count_found_rows_table s t k ft fk = a :: ra →
       env.count_unique_rows_table s t k = b :: rb →
       ((dimensional_integrity_check_found env s t k ft fk).2 = .ok () ↔
         ∃ n, flattenRow a = some n ∧ flattenRow b = some n)) ∧
    (∀ (env : Env) (s t k fk : String) (a : List Int) (ra : List (List Int))
       (b : List Int) (rb : List (List Int)),
       env.count_unique_rows_table s t fk = a :: ra →
       env.count_unique_rows_table s t k = b :: rb →
       ((dimensional_integrity_check_potential env s t k fk).2 = .ok () ↔
         ∃ n, flattenRow a = some n ∧ flattenRow b = some n)) ∧
    (∀ (env : Env) (s t k : String) (a : List Int) (ra : List (List Int))
       (n : Int),
       env.count_unique_rows_table s t k = a :: ra →
       flattenRow a = some n →
       ((value_variance_check env s t k "1").2 = .ok () ↔ n = 1)) := by
  refine ⟨by decide, by decide, ?_, ?_, ?_, ?_, ?_⟩
  · intro env s t k a ra b rb h1 h2
    simp only [row_unique_check, h1, h2]
    exact scalarEqCheck_ok_iff a b ra rb _
  · intro env f1 f2 a ra b rb h1 h2
    simp only [row_unique_check2, h1, h2]
    exact scalarEqCheck_ok_iff a b ra rb _
  · intro env s t k ft fk a ra b rb h1 h2
    simp only [dimensional_integrity_check_found, h1, h2]
    exact scalarEqCheck_ok_iff a b ra rb _
  · intro env s t k fk a ra b rb h1 h2
    simp only [dimensional_integrity_check_potential, h1, h2]
    exact scalarEqCheck_ok_iff a b ra rb _
  · intro env s t k a ra n h1 hf
    simp only [value_variance_check, h1, hf]
    rw [show pyIntOfString "1" = some 1 from by decide]
    by_cases hn : n = 1
    · simp [hn]
    · simp [hn]

/-- Witness for C1: in the concrete environment whose unique-count result is
`[(3, 14)]` and whose object/found-count results are `[(3,)]`, the three
equality-shaped checks pass (both sides flatten to 3). -/
theorem C1_scalar_flatten_witness :
    (row_unique_check envFlat "s" "t" "k").2 = .ok () ∧
    (row_unique_check2 envFlat "a" "b").2 = .ok () ∧
    (dimensional_integrity_check_found envFlat "s" "t" "k" "ft" "fk").2 =
      .ok () := by
  refine ⟨?_, ?_, ?_⟩
  · exact (C1_scalar_flatten.2.2.1 envFlat "s" "t" "k" [3, 14] [] [3] []
      rfl rfl).mpr ⟨3, by decide, by decide⟩
  · exact (C1_scalar_flatten.2.2.2.1 envFlat "a" "b" [3, 14] [] [3, 14] []
      rfl rfl).mpr ⟨3, by decide, by decide⟩
  · exact (C1_scalar_flatten.2.2.2.2.1 envFlat "s" "t" "k" "ft" "fk" [3] []
      [3, 14] [] rfl rfl).mpr ⟨3, by decide, by decide⟩

/-- C2: for every query and coercible count argument, the equality check
passes exactly when the observed row count is equal, the greater-than check
exactly when it is greater, the less-than check exactly when it is less;
and each failing check raises an AssertionError whose message ends in the
actual observed row count. -/
theorem C2_row_count_comparisons :
    ∀ (env : Env) (q nStr : String) (n : Int) (b : Bool),
      pyIntOfString nStr = some n →
      ((row_count_is_equal_to_x env q nStr b).2 = .ok () ↔
        env.row_count q b = n) ∧
      ((row_count_is_greater_than_x env q nStr b).2 = .ok () ↔
        env.row_count q b > n) ∧
      ((row_count_is_less_than_x env q nStr b).2 = .ok () ↔
        env.row_count q b < n) ∧
      (env.row_count q b ≠ n →
        ∃ m, (row_count_is_equal_to_x env q nStr b).2 =
          .error (.assertionError (m ++ toString (env.row_count q b)))) ∧
      (¬ env.row_count q b > n →
        ∃ m, (row_count_is_greater_than_x env q nStr b).2 =
          .error (.assertionError (m ++ toString (env.row_count q b)))) ∧
      (¬ env.row_count q b < n →
        ∃ m, (row_count_is_less_than_x env q nStr b).2 =
          .error (.assertionError (m ++ toString (env.row_count q b)))) := by
  intro env q nStr n b hn
  refine ⟨?_, ?_, ?_, ?_, ?_, ?_⟩
  · simp only [row_count_is_equal_to_x, hn]
    by_cases h : env.row_count q b = n
    · rw [if_neg (not_not_intro h)]
      simp [h]
    · rw [if_pos h]
      constructor
      · intro hh
        simp at hh
      · intro hh
        exact absurd hh h
  · simp only [row_count_is_greater_than_x, hn]
    by_cases h : env.row_count q b ≤ n
    · rw [if_pos h]
      constructor
      · intro hh
        simp at hh
      · intro hh
        exact absurd hh (by omega)
    · rw [if_neg h]
      constructor
      · intro _
        omega
      · intro _
        rfl
  · simp only [row_count_is_less_than_x, hn]
    by_cases h : env.row_count q b ≥ n
    · rw [if_pos h]
      constructor
      · intro hh
        simp at hh
      · intro hh
        exact absurd hh (by omega)
    · rw [if_neg h]
      constructor
      · intro _
        omega
      · intro _
        rfl
  · intro h
    simp only [row_count_is_equal_to_x, hn]
    rw [if_pos h]
    exact ⟨_, rfl⟩
  · intro h
    simp only [row_count_is_greater_than_x, hn]
    rw [if_pos (by omega)]
    exact ⟨_, rfl⟩
  · intro h
    simp only [row_count_is_less_than_x, hn]
    rw [if_pos (by omega)]
    exact ⟨_, rfl⟩

/-- Witness for C2: with row counts fixed at 5, the equality check passes
against `"5"` and fails against `"4"` with the observed count 5 ending the
message. -/
theorem C2_row_count_comparisons_witness :
    (row_count_is_equal_to_x envRows "q" "5" false).2 = .ok () ∧
    (∃ m, (row_count_is_equal_to_x envRows "q" "4" false).2 =
      .error (.assertionError (m ++ toString (envRows.row_count "q" false)))) := by
  constructor
  · exact (C2_row_count_comparisons envRows "q" "5" 5 false (by decide)).1.mpr
      rfl
  · exact (C2_row_count_comparisons envRows "q" "4" 4 false
      (by decide)).2.2.2.1 (by decide)

/-- C3: a query returning at least one row makes `check_if_exists_in_database`
pass and `check_if_not_exists_in_database` raise; a query returning zero rows
does the reverse; each failing check raises an AssertionError whose message
contains the offending query text. -/
theorem C3_existence_checks :
    ∀ (env : Env) (q : String) (b : Bool),
      (env.query q b ≠ [] →
        (check_if_exists_in_database env q b).2 = .ok () ∧
        ∃ p s, (check_if_not_exists_in_database env q b).2 =
          .error (.assertionError (p ++ q ++ s))) ∧
      (env.query q b = [] →
        (check_if_not_exists_in_database env q b).2 = .ok () ∧
        ∃ p s, (check_if_exists_in_database env q b).2 =
          .error (.assertionError (p ++ q ++ s))) := by
  intro env q b
  constructor
  · intro h
    constructor
    · simp only [check_if_exists_in_database]
      rw [if_neg h]
    · simp only [check_if_not_exists_in_database]
      rw [if_neg h]
      exact ⟨_, _, rfl⟩
  · intro h
    constructor
    · simp only [check_if_not_exists_in_database]
      rw [if_pos h]
    · simp only [check_if_exists_in_database]
      rw [if_pos h]
      exact ⟨_, _, rfl⟩

/-- Witness for C3: with one returned row the existence check passes and the
non-existence check raises carrying the query text; with no returned rows
the reverse. -/
theorem C3_existence_checks_witness :
    ((check_if_exists_in_database envRows "SELECT 1" false).2 = .ok () ∧
      ∃ p s, (check_if_not_exists_in_database envRows "SELECT 1" false).2 =
        .error (.assertionError (p ++ "SELECT 1" ++ s))) ∧
    ((check_if_not_exists_in_database envEmpty "SELECT 1" false).2 = .ok () ∧
      ∃ p s, (check_if_exists_in_database envEmpty "SELECT 1" false).2 =
        .error (.assertionError (p ++ "SELECT 1" ++ s))) :=
  ⟨(C3_existence_checks envRows "SELECT 1" false).1 (by decide),
   (C3_existence_checks envEmpty "SELECT 1" false).2 rfl⟩

/-- C4: `table_must_exist` builds its SQL by dispatch on the stored driver
module name: for `"sqlite3"` it queries `sqlite_master` with `COLLATE NOCASE`,
for every unrecognized driver name it falls back to the ANSI
`information_schema.tables` query with the exact match `table_name='…'`,
and the check row-counts exactly the dispatched statement. -/
theorem C4_table_must_exist_dispatch :
    (∀ t : String, tableExistsStatement "sqlite3" t =
      "SELECT name FROM sqlite_master WHERE type='table' AND name='" ++ t ++
        "' COLLATE NOCASE") ∧
    (∀ d t : String, d ≠ "cx_Oracle" → d ≠ "sqlite3" → d ≠ "ibm_db" →
      d ≠ "ibm_db_dbi" →
      tableExistsStatement d t =
        "SELECT * FROM information_schema.tables WHERE table_name='" ++ t ++
          "'") ∧
    (∀ (env : Env) (t : String) (b : Bool),
      (table_must_exist env t b).1 =
        [.rowCountEv (tableExistsStatement env.db_api_module_name t) b]) := by
  refine ⟨?_, ?_, ?_⟩
  · intro t
    simp [tableExistsStatement]
  · intro d t h1 h2 h3 h4
    simp only [tableExistsStatement]
    rw [if_neg h1, if_neg h2, if_neg (not_or.mpr ⟨h3, h4⟩)]
  · intro env t b
    rfl

/-- Witness for C4: the unrecognized driver name `"psycopg2"` gets the exact
ANSI fallback statement for table `person`. -/
theorem C4_table_must_exist_dispatch_witness :
    tableExistsStatement "psycopg2" "person" =
      "SELECT * FROM information_schema.tables WHERE table_name='" ++
        "person" ++ "'" :=
  C4_table_must_exist_dispatch.2.1 "psycopg2" "person" (by decide) (by decide)
    (by decide) (by decide)

/-- C5: with a positive total row count, `count_empty_column_value_percentage`
computes `(null_rows / total_rows) * 100` exactly and raises an
AssertionError precisely when that value strictly exceeds the caller's
float threshold. -/
theorem C5_percentage_threshold :
    ∀ (env : Env) (s t c : String) (p : ℚ),
      0 < env.row_count (emptyTotalQuery s t) false →
      (((count_empty_column_value_percentage env s t c p).2 = .ok ()) ↔
        ¬ ((env.row_count (emptyColumnQuery s t c) false : ℚ) /
            (env.row_count (emptyTotalQuery s t) false : ℚ) * 100 > p)) ∧
      ((env.row_count (emptyColumnQuery s t c) false : ℚ) /
          (env.row_count (emptyTotalQuery s t) false : ℚ) * 100 > p →
        ∃ m, (count_empty_column_value_percentage env s t c p).2 =
          .error (.assertionError m)) := by
  intro env s t c p hpos
  have hne : env.row_count (emptyTotalQuery s t) false ≠ 0 := by omega
  constructor
  · simp only [count_empty_column_value_percentage]
    rw [if_neg hne]
    by_cases h : (env.row_count (emptyColumnQuery s t c) false : ℚ) /
        (env.row_count (emptyTotalQuery s t) false : ℚ) * 100 > p
    · rw [if_pos h]
      constructor
      · intro hh
        simp at hh
      · intro hh
        exact absurd h hh
    · rw [if_neg h]
      simp [h]
  · intro h
    simp only [count_empty_column_value_percentage]
    rw [if_neg hne, if_pos h]
    exact ⟨_, rfl⟩

/-- Witness for C5: with 10 total rows and 3 null rows the computed
percentage 30 fails against the threshold 20 and passes against 40. -/
theorem C5_percentage_threshold_witness :
    (∃ m, (count_empty_column_value_percentage envPct "s" "t" "c" 20).2 =
      .error (.assertionError m)) ∧
    (count_empty_column_value_percentage envPct "s" "t" "c" 40).2 = .ok () := by
  have h3 : envPct.row_count (emptyColumnQuery "s" "t" "c") false = 3 := by
    decide
  have h10 : envPct.row_count (emptyTotalQuery "s" "t") false = 10 := by
    decide
  constructor
  · exact (C5_percentage_threshold envPct "s" "t" "c" 20
      (by rw [h10]; norm_num)).2 (by rw [h3, h10]; norm_num)
  · exact (C5_percentage_threshold envPct "s" "t" "c" 40
      (by rw [h10]; norm_num)).1.mpr (by rw [h3, h10]; norm_num)

/-- C6: when the total row count is 0, `count_empty_column_value_percentage`
raises the native division-by-zero error unchanged: it is not caught and
not turned into an AssertionError. -/
theorem C6_percentage_division_by_zero :
    ∀ (env : Env) (s t c : String) (p : ℚ),
      env.row_count (emptyTotalQuery s t) false = 0 →
      (count_empty_column_value_percentage env s t c p).2 =
        .error .zeroDivisionError := by
  intro env s t c p h
  simp only [count_empty_column_value_percentage]
  rw [if_pos h]

/-- Witness for C6: against the environment whose row counts are all 0, the
percentage check surfaces the ZeroDivisionError. -/
theorem C6_percentage_division_by_zero_witness :
    (count_empty_column_value_percentage envEmpty "s" "t" "c" 20).2 =
      .error .zeroDivisionError :=
  C6_percentage_division_by_zero envEmpty "s" "t" "c" 20 rfl

/-- C7: every nonempty all-digit count argument is coercible by the checks'
own `int(...)` step, and a non-coercible argument makes each row-count
comparison surface the native coercion error unchanged (never an
AssertionError). -/
theorem C7_count_argument_coercion :
    (∀ s : String, s.data ≠ [] → s.data.all Char.isDigit = true →
      ∃ n : Int, pyIntOfString s = some n) ∧
    (∀ (env : Env) (q nStr : String) (b : Bool),
      pyIntOfString nStr = none →
      (row_count_is_equal_to_x env q nStr b).2 = .error .valueError ∧
      (row_count_is_greater_than_x env q nStr b).2 = .error .valueError ∧
      (row_count_is_less_than_x env q nStr b).2 = .error .valueError) := by
  constructor
  · intro s hne hdig
    cases hdata : s.data with
    | nil => exact absurd hdata hne
    | cons c rest =>
      rw [hdata] at hdig
      simp only [List.all_cons, Bool.and_eq_true] at hdig
      obtain ⟨hc, hrest⟩ := hdig
      have hm : c ≠ '-' := by
        intro e
        rw [e] at hc
        exact absurd hc (by decide)
      have hp : c ≠ '+' := by
        intro e
        rw [e] at hc
        exact absurd hc (by decide)
      refine ⟨(digitsToNat (c :: rest) : Int), ?_⟩
      rw [pyIntOfString, hdata]
      simp only [pyIntChars]
      rw [if_neg hm, if_neg hp]
      simp only [pyIntAux]
      rw [if_pos ⟨by simp, by simp [hc, hrest]⟩]
  · intro env q nStr b hn
    refine ⟨?_, ?_, ?_⟩
    · simp [row_count_is_equal_to_x, hn]
    · simp [row_count_is_greater_than_x, hn]
    · simp [row_count_is_less_than_x, hn]

/-- Witness for C7: the digit string `"42"` coerces, and the non-numeric
string `"abc"` makes the equality check surface the native ValueError. -/
theorem C7_count_argument_coercion_witness :
    (∃ n : Int, pyIntOfString "42" = some n) ∧
    (row_count_is_equal_to_x envRows "q" "abc" false).2 = .error .valueError := by
  constructor
  · exact C7_count_argument_coercion.1 "42" (by decide) (by decide)
  · exact (C7_count_argument_coercion.2 envRows "q" "abc" false (by decide)).1

/-- C8: `compare_table_structure_snowflake` and `check_query_result` execute
the deployment script exactly once, strictly before their single comparison
call, with no retry — and the trace is the same whatever the comparison's
outcome, so a failing comparison leaves the script's effects in place (no
rollback event exists). -/
theorem C8_deploy_then_compare :
    ∀ (env : Env) (script ts tt rs rt : String) (b : Bool),
      (compare_table_structure_snowflake env script ts tt rs rt).1 =
        [.execScriptEv script,
          .rowCountEv (snowflakeCompareQuery ts tt rs rt) false] ∧
      (check_query_result env script ts tt rs rt b).1 =
        [.execScriptEv script, .compareTablesEv ts tt rs rt] := by
  intro env script ts tt rs rt b
  exact ⟨rfl, rfl⟩

/-- C9: the two script row-count keywords accept `sansTran` but never forward
it: their whole observable behaviour (trace and outcome) is the same for any
two values of the flag, and the inner row-count call always runs with the
default transactional mode (`false`). -/
theorem C9_script_sansTran_ignored :
    ∀ (env : Env) (f nStr : String) (b1 b2 : Bool),
      script_row_count_is_greater_than_x env f nStr b1 =
        script_row_count_is_greater_than_x env f nStr b2 ∧
      script_row_count_is_equal_to_x env f nStr b1 =
        script_row_count_is_equal_to_x env f nStr b2 ∧
      (script_row_count_is_greater_than_x env f nStr b1).1 =
        [.openSqlEv f, .rowCountEv (env.open_sql f) false] ∧
      (script_row_count_is_equal_to_x env f nStr b1).1 =
        [.openSqlEv f, .rowCountEv (env.open_sql f) false] := by
  intro env f nStr b1 b2
  exact ⟨rfl, rfl, rfl, rfl⟩

/-- C10 counterexample: with the three-column unique-count result
`(1, 2, 3)` and field `"7"`, `value_variance_check` raises the native
ValueError of `float("1.2.3")`, not the claimed 4th-argument
AssertionError — so the AssertionError is NOT raised regardless of the
database result. -/
theorem C10_counterexample :
    (value_variance_check envVar "s" "t" "k" "7").2 = .error .valueError ∧
    (value_variance_check envVar "s" "t" "k" "7").2 ≠
      .error (.assertionError
        "Check 4th argument in TC, expected value 0, 1 or 2") := by
  constructor
  · rfl
  · intro h
    rw [show (value_variance_check envVar "s" "t" "k" "7").2 =
      .error .valueError from rfl] at h
    simp at h

/-- C10 (amended): provided the unique-count result has a first row whose
flatten succeeds, `value_variance_check` raises the AssertionError
"Check 4th argument in TC, expected value 0, 1 or 2" whenever `int(field)`
is none of 0, 1, 2; for field 0 or 1 it passes exactly when the flattened
unique-row count equals the field; for field 2 it passes exactly when the
flattened count is at least 2 (a lower bound, not an equality). -/
theorem C10_value_variance_dispatch :
    ∀ (env : Env) (s t k field : String) (a : List Int)
      (ra : List (List Int)) (n f : Int),
      env.count_unique_rows_table s t k = a :: ra →
      flattenRow a = some n →
      pyIntOfString field = some f →
      ((f ≠ 0 ∧ f ≠ 1 ∧ f ≠ 2) →
        (value_variance_check env s t k field).2 =
          .error (.assertionError
            "Check 4th argument in TC, expected value 0, 1 or 2")) ∧
      (f = 0 ∨ f = 1 →
        ((value_variance_check env s t k field).2 = .ok () ↔ n = f)) ∧
      (f = 2 →
        ((value_variance_check env s t k field).2 = .ok () ↔ 2 ≤ n)) := by
  intro env s t k field a ra n f h1 hf hfield
  refine ⟨?_, ?_, ?_⟩
  · rintro ⟨g0, g1, g2⟩
    simp only [value_variance_check, h1, hf, hfield]
    rw [if_neg g0, if_neg g1, if_neg g2]
  · rintro (g0 | g1)
    · subst g0
      simp only [value_variance_check, h1, hf, hfield]
      rw [if_pos trivial]
      by_cases hn : n = 0
      · rw [if_neg (not_not_intro hn)]
        simp [hn]
      · rw [if_pos hn]
        constructor
        · intro hh
          simp at hh
        · intro hh
          exact absurd hh hn
    · subst g1
      simp only [value_variance_check, h1, hf, hfield]
      rw [if_pos trivial]
      by_cases hn : n = 1
      · rw [if_neg (not_not_intro hn)]
        simp [hn]
      · rw [if_pos hn]
        constructor
        · intro hh
          simp at hh
        · intro hh
          exact absurd hh hn
  · intro g2
    subst g2
    simp only [value_variance_check, h1, hf, hfield]
    rw [if_pos trivial]
    by_cases hn : n < 2
    · rw [if_pos hn]
      constructor
      · intro hh
        simp at hh
      · intro hh
        exact absurd hh (by omega)
    · rw [if_neg hn]
      constructor
      · intro _
        omega
      · intro _
        rfl

/-- Witness for the amended C10: with the unique-count result `[(3, 14)]`
(flattening to 3) and field `"7"`, the check raises exactly the fixed
4th-argument AssertionError. -/
theorem C10_value_variance_dispatch_witness :
    (value_variance_check envFlat "s" "t" "k" "7").2 =
      .error (.assertionError
        "Check 4th argument in TC, expected value 0, 1 or 2") :=
  (C10_value_variance_dispatch envFlat "s" "t" "k" "7" [3, 14] [] 3 7 rfl
    (by decide) (by decide)).1 (by decide)
